import Mathlib

set_option maxHeartbeats 1000000

/-! Shallow embedding of the neural-network gas-optics engine and the shortwave
two-stream flux solver of the rte-rrtmgp-cpp-nn repository.  Machine reals (the
template parameter TF, instantiated at float or double) are modelled as ℚ.
Fortran-style 1-based arrays are modelled as total functions from (1-based)
index tuples to ℚ. -/

/-- Pointwise update of a rank-2 array modelled as a function on index pairs. -/
def upd2 (f : Nat × Nat → ℚ) (i j : Nat) (v : ℚ) : Nat × Nat → ℚ :=
  fun p => if p = (i, j) then v else f p

/-- Innermost loop of Rte_sw::expand_and_transpose (src/Rte_sw.cpp lines 112-113):
for igpt = lo .. hi, arr_out(icol, igpt) := arr_in(iband, icol). -/
def gpt_loop (arr_in : Nat → Nat → ℚ) (iband icol lo hi : Nat)
    (acc : Nat × Nat → ℚ) : Nat × Nat → ℚ :=
  (List.range (hi + 1 - lo)).foldl (fun a k => upd2 a icol (lo + k) (arr_in iband icol)) acc

/-- Middle loop of Rte_sw::expand_and_transpose over icol = 1 .. ncol. -/
def col_loop (arr_in : Nat → Nat → ℚ) (iband ncol lo hi : Nat)
    (acc : Nat × Nat → ℚ) : Nat × Nat → ℚ :=
  (List.range ncol).foldl (fun a c => gpt_loop arr_in iband (c + 1) lo hi a) acc

/-- Rte_sw::expand_and_transpose (src/Rte_sw.cpp lines 100-114): for each band
iband = 1 .. nband and each column icol = 1 .. ncol, broadcast the band value
arr_in(iband, icol) onto arr_out(icol, igpt) for every igpt in the band range
limits(1, iband) .. limits(2, iband). -/
def expand_and_transpose (nband ncol : Nat) (limits : Nat → Nat → Nat)
    (arr_in : Nat → Nat → ℚ) (arr_out : Nat × Nat → ℚ) : Nat × Nat → ℚ :=
  (List.range nband).foldl
    (fun a b => col_loop arr_in (b + 1) ncol (limits 1 (b + 1)) (limits 2 (b + 1)) a) arr_out

/-- The band-to-gpoint index ranges delivered by get_band_lims_gpoint are
pairwise disjoint closed intervals (each spectral point belongs to one band). -/
def bands_disjoint (nband : Nat) (limits : Nat → Nat → Nat) : Prop :=
  ∀ b c, 1 ≤ b → b ≤ nband → 1 ≤ c → c ≤ nband → b ≠ c →
    limits 2 b < limits 1 c ∨ limits 2 c < limits 1 b

/-- Membership of a (column, layer, gpoint) index triple in the 1-based index
domain of an (ncol, nlay, ngpt) shaped rank-3 array. -/
def in_dom (ncol nlay ngpt : Nat) (p : Nat × Nat × Nat) : Bool :=
  decide (1 ≤ p.1) && decide (p.1 ≤ ncol) && decide (1 ≤ p.2.1) && decide (p.2.1 ≤ nlay)
    && decide (1 ≤ p.2.2) && decide (p.2.2 ≤ ngpt)

/-- The caller-supplied shortwave optical-property container (tau / ssa / g),
with its spectral extent ngpt recorded as part of the container. -/
structure Optical_props_sw where
  ngpt : Nat
  tau : Nat × Nat × Nat → ℚ
  ssa : Nat × Nat × Nat → ℚ
  g : Nat × Nat × Nat → ℚ

/-- Modelled from the spec: the output-writing step of
Gas_optics_nn::compute_tau_ssa_nn (declared in src/include/Gas_optics_nn.h
lines 87-97; the implementation file is not among the sources).  The raw
network outputs raw_tau and raw_ssa are passed in as opaque per-gridpoint
values; following the spec, the single-scatter albedo written into the
container is saturated into [0, 1] and the optical depth is saturated to be
non-negative; out-of-range network outputs are clamped, never rejected.
Entries outside the (ncol, nlay, ngpt) domain are left as they were. -/
def compute_tau_ssa_nn (ncol nlay ngpt : Nat)
    (raw_tau raw_ssa : Nat × Nat × Nat → ℚ)
    (optical_props : Optical_props_sw) : Optical_props_sw :=
  { optical_props with
    tau := fun p => if in_dom ncol nlay ngpt p then max 0 (raw_tau p) else optical_props.tau p
    ssa := fun p => if in_dom ncol nlay ngpt p then min 1 (max 0 (raw_ssa p))
                    else optical_props.ssa p }

/-- The hardcoded tropopause reference pressure of Gas_optics_nn
(src/include/Gas_optics_nn.h line 77): 9948.431564193395 Pa. -/
def press_ref_trop_value : ℚ := 9948431564193395 / 1000000000000

/-- State of a Gas_optics_nn object: gas name list, the three solar source
component vectors, the effective solar source, the stored default indices and
the tropopause reference pressure member (src/include/Gas_optics_nn.h
lines 76-139).  The four network objects are immutable after construction and
are modelled outside the state as opaque functions where needed. -/
structure Gas_optics_nn where
  gas_names : List String
  solar_source_quiet : Nat → ℚ
  solar_source_facular : Nat → ℚ
  solar_source_sunspot : Nat → ℚ
  solar_source : Nat → ℚ
  tsi_default : ℚ
  mg_default : ℚ
  sb_default : ℚ
  press_ref_trop : ℚ

/-- Modelled from the spec: Gas_optics_nn::set_solar_variability (declared in
src/include/Gas_optics_nn.h lines 80-81; implementation not among the
sources) recomputes the effective solar source as a linear combination of the
quiet, facular and sunspot component vectors weighted by the two indices,
touching no other state. -/
def set_solar_variability (s : Gas_optics_nn) (md_index sb_index : ℚ) : Gas_optics_nn :=
  { s with solar_source := fun igpt =>
      s.solar_source_quiet igpt + md_index * s.solar_source_facular igpt
        + sb_index * s.solar_source_sunspot igpt }

/-- Modelled from the spec: the longwave constructor of Gas_optics_nn
(src/include/Gas_optics_nn.h lines 22-27; implementation not among the
sources).  It loads networks and band metadata; it has no solar source
components.  The const member press_ref_trop is set by its in-class
initializer. -/
def construct_lw (names : List String) : Gas_optics_nn :=
  { gas_names := names
    solar_source_quiet := fun _ => 0
    solar_source_facular := fun _ => 0
    solar_source_sunspot := fun _ => 0
    solar_source := fun _ => 0
    tsi_default := 0
    mg_default := 0
    sb_default := 0
    press_ref_trop := press_ref_trop_value }

/-- Modelled from the spec: the shortwave constructor of Gas_optics_nn
(src/include/Gas_optics_nn.h lines 30-41; implementation not among the
sources).  It stores the three solar source component vectors and the default
indices, and calls set_solar_variability once with the default indices to
materialize the initial effective solar source.  The const member
press_ref_trop is set by its in-class initializer. -/
def construct_sw (names : List String) (quiet facular sunspot : Nat → ℚ)
    (tsi mg sb : ℚ) : Gas_optics_nn :=
  set_solar_variability
    { gas_names := names
      solar_source_quiet := quiet
      solar_source_facular := facular
      solar_source_sunspot := sunspot
      solar_source := fun _ => 0
      tsi_default := tsi
      mg_default := mg
      sb_default := sb
      press_ref_trop := press_ref_trop_value } mg sb

/-- States of a Gas_optics_nn object reachable through its operations: one of
the two constructors followed by any number of set_solar_variability updates
(the gas_optics member functions are const and do not change the state). -/
inductive Reachable : Gas_optics_nn → Prop
  | lw (names : List String) : Reachable (construct_lw names)
  | sw (names : List String) (quiet facular sunspot : Nat → ℚ) (tsi mg sb : ℚ) :
      Reachable (construct_sw names quiet facular sunspot tsi mg sb)
  | solar_update (s : Gas_optics_nn) (md sb : ℚ) :
      Reachable s → Reachable (set_solar_variability s md sb)

/-- A per-gas volume-mixing-ratio field of rank 0, 1 or 2. -/
inductive GasField
  | scalar (v : ℚ)
  | per_lay (v : List ℚ)
  | per_lay_col (v : List ℚ)
deriving DecidableEq

/-- The gas concentration store: a name-keyed collection of vmr fields. -/
structure Gas_concs where
  vmr : List (String × GasField)
deriving DecidableEq

/-- Whether a gas of the given name is present in the store. -/
def Gas_concs.exists_gas (gc : Gas_concs) (name : String) : Bool :=
  gc.vmr.any (fun kv => kv.1 = name)

/-- Gas_concs::set_vmr: replace the field stored under the name, or append a
new entry when the name is not yet present. -/
def Gas_concs.set_vmr (gc : Gas_concs) (name : String) (f : GasField) : Gas_concs :=
  if gc.exists_gas name then
    ⟨gc.vmr.map (fun kv => if kv.1 = name then (name, f) else kv)⟩
  else
    ⟨gc.vmr ++ [(name, f)]⟩

/-- All gases referenced by the trained feature set of the engine are present
in the gas concentration store. -/
def gases_present (e : Gas_optics_nn) (gc : Gas_concs) : Bool :=
  e.gas_names.all (fun n => gc.exists_gas n)

/-- The longwave source container Source_func_lw: layer, incoming/outgoing
level, and surface Planck source fields, with the spectral extent recorded. -/
structure Source_func_lw where
  ngpt : Nat
  lay_source : Nat × Nat × Nat → ℚ
  lev_source_inc : Nat × Nat × Nat → ℚ
  lev_source_dec : Nat × Nat × Nat → ℚ
  sfc_source : Nat × Nat → ℚ

/-- The longwave optical-property container (tau only), with spectral
extent. -/
structure Optical_props_lw where
  ngpt : Nat
  tau : Nat × Nat × Nat → ℚ

/-- The caller-visible world of a longwave gas_optics call: the engine state,
the profile inputs, the gas concentration store and the caller-supplied
output containers, everything the call could reach through references. -/
structure LwWorld where
  engine : Gas_optics_nn
  play : Nat × Nat → ℚ
  plev : Nat × Nat → ℚ
  tlay : Nat × Nat → ℚ
  tlev : Nat × Nat → ℚ
  tsfc : Nat → ℚ
  col_dry : Nat × Nat → ℚ
  gas_concs : Gas_concs
  optical_props : Optical_props_lw
  sources : Source_func_lw

/-- The top-of-atmosphere source output container of the shortwave call. -/
structure Toa_src where
  ngpt : Nat
  values : Nat × Nat → ℚ

/-- The caller-visible world of a shortwave gas_optics call. -/
structure SwWorld where
  engine : Gas_optics_nn
  play : Nat × Nat → ℚ
  plev : Nat × Nat → ℚ
  tlay : Nat × Nat → ℚ
  col_dry : Nat × Nat → ℚ
  gas_concs : Gas_concs
  optical_props : Optical_props_sw
  toa_src : Toa_src

/-- Modelled from the spec: the longwave Gas_optics_nn::gas_optics overload
(declared in src/include/Gas_optics_nn.h lines 44-53; implementation not
among the sources).  The raw tlw/plk network outputs are passed in as opaque
values.  If some gas referenced by the trained feature set is absent from the
store, the call aborts with a fatal configuration error before writing any
output; otherwise it writes optical depth and the source fields in place (the
spectral extent of the caller containers is never reallocated) and mutates
nothing else. -/
def gas_optics_lw (ncol nlay ngpt : Nat)
    (raw_tau raw_lay raw_inc raw_dec : Nat × Nat × Nat → ℚ)
    (raw_sfc : Nat × Nat → ℚ) (w : LwWorld) : LwWorld × Option String :=
  if gases_present w.engine w.gas_concs then
    ({ w with
        optical_props := { w.optical_props with
          tau := fun p => if in_dom ncol nlay ngpt p then raw_tau p else w.optical_props.tau p }
        sources := { w.sources with
          lay_source := fun p =>
            if in_dom ncol nlay ngpt p then raw_lay p else w.sources.lay_source p
          lev_source_inc := fun p =>
            if in_dom ncol nlay ngpt p then raw_inc p else w.sources.lev_source_inc p
          lev_source_dec := fun p =>
            if in_dom ncol nlay ngpt p then raw_dec p else w.sources.lev_source_dec p
          sfc_source := fun q =>
            if in_dom ncol 1 ngpt (q.1, 1, q.2) then raw_sfc q else w.sources.sfc_source q } },
      none)
  else
    (w, some "Not all gases of the trained feature set are present in gas_concs")

/-- Modelled from the spec: the shortwave Gas_optics_nn::gas_optics overload
(declared in src/include/Gas_optics_nn.h lines 56-63; implementation not
among the sources).  The raw tsw/ssa network outputs are passed in as opaque
values; the written tau and ssa go through the saturation of
compute_tau_ssa_nn, and toa_src is produced from the stored effective solar
source.  A missing required gas aborts the call with a configuration error
before any output is written. -/
def gas_optics_sw (ncol nlay ngpt : Nat)
    (raw_tau raw_ssa : Nat × Nat × Nat → ℚ) (w : SwWorld) : SwWorld × Option String :=
  if gases_present w.engine w.gas_concs then
    ({ w with
        optical_props := compute_tau_ssa_nn ncol nlay ngpt raw_tau raw_ssa w.optical_props
        toa_src := { w.toa_src with
          values := fun q => if in_dom ncol 1 ngpt (q.1, 1, q.2) then w.engine.solar_source q.2
                             else w.toa_src.values q } },
      none)
  else
    (w, some "Not all gases of the trained feature set are present in gas_concs")

/-- The broadband flux container of the shortwave solve. -/
structure Fluxes_broadband where
  flux_up : Nat × Nat → ℚ
  flux_dn : Nat × Nat → ℚ
  flux_dn_dir : Nat × Nat → ℚ
  flux_net : Nat × Nat → ℚ

/-- Modelled from the spec: Fluxes_broadband::reduce (called at
src/Rte_sw.cpp line 97; the Fluxes implementation file is not among the
sources).  Per-spectral-point fluxes are reduced to broadband fluxes by
summation over the spectral points, and the net flux is the per-point
difference of upward and total downward flux (the downward stream handed in
by the two-stream solver already includes the direct beam) summed over the
spectral points. -/
def Fluxes_broadband.reduce (ngpt : Nat)
    (gpt_flux_up gpt_flux_dn gpt_flux_dir : Nat × Nat × Nat → ℚ) : Fluxes_broadband :=
  { flux_up := fun p => ∑ k ∈ Finset.range ngpt, gpt_flux_up (p.1, p.2, k + 1)
    flux_dn := fun p => ∑ k ∈ Finset.range ngpt, gpt_flux_dn (p.1, p.2, k + 1)
    flux_dn_dir := fun p => ∑ k ∈ Finset.range ngpt, gpt_flux_dir (p.1, p.2, k + 1)
    flux_net := fun p => ∑ k ∈ Finset.range ngpt,
      (gpt_flux_up (p.1, p.2, k + 1) - gpt_flux_dn (p.1, p.2, k + 1)) }

/-- The observable steps of one Rte_sw::rte_sw call, in the kernel library the
solver could draw from (sw_solver_noscat exists upstream but is never called
here). -/
inductive RteStep
  | expand_albedo
  | bc_factor
  | bc_zero
  | solver_2stream
  | solver_noscat
  | reduce_fluxes
deriving DecidableEq

/-- Index of the top level: level 1 when top_at_1 holds, level nlay + 1
otherwise. -/
def top_level (nlay : Nat) (top_at_1 : Bool) : Nat :=
  if top_at_1 then 1 else nlay + 1

/-- Modelled from the spec: the apply_BC kernel overload with an incident flux
and a factor (launcher at src/Rte_sw.cpp lines 20-33; the kernel body is not
among the sources).  The flux at the top level becomes the per-column incident
flux scaled by the per-column factor; other levels are left as handed in. -/
def apply_BC_factor (nlay : Nat) (top_at_1 : Bool)
    (inc_flux : Nat × Nat → ℚ) (factor : Nat → ℚ)
    (gpt_flux : Nat × Nat × Nat → ℚ) : Nat × Nat × Nat → ℚ :=
  fun p => if p.2.1 = top_level nlay top_at_1 then inc_flux (p.1, p.2.2) * factor p.1
           else gpt_flux p

/-- Modelled from the spec: the zero-incident apply_BC kernel overload
(launcher at src/Rte_sw.cpp lines 10-18; the kernel body is not among the
sources).  The downward diffuse flux at the top level is set to zero; other
levels are left as handed in. -/
def apply_BC_zero (nlay : Nat) (top_at_1 : Bool)
    (gpt_flux : Nat × Nat × Nat → ℚ) : Nat × Nat × Nat → ℚ :=
  fun p => if p.2.1 = top_level nlay top_at_1 then 0 else gpt_flux p

/-- The opaque two-stream kernel contract: from tau, ssa, g, mu0, the expanded
surface albedos and the boundary-conditioned downward and direct flux arrays
it returns the (up, dn, dir) per-spectral-point flux profiles. -/
abbrev SwSolver :=
  (Nat × Nat × Nat → ℚ) → (Nat × Nat × Nat → ℚ) → (Nat × Nat × Nat → ℚ) →
  (Nat → ℚ) → (Nat × Nat → ℚ) → (Nat × Nat → ℚ) →
  (Nat × Nat × Nat → ℚ) → (Nat × Nat × Nat → ℚ) →
  (Nat × Nat × Nat → ℚ) × (Nat × Nat × Nat → ℚ) × (Nat × Nat × Nat → ℚ)

/-- The inputs of one Rte_sw::rte_sw call (src/Rte_sw.cpp lines 57-98): the
dimensions and band limits read off the optical-property container, the
optical fields, mu0, the incident flux and the per-band surface albedos. -/
structure Rte_sw_args where
  ncol : Nat
  nlay : Nat
  ngpt : Nat
  nband : Nat
  top_at_1 : Bool
  band_lims : Nat → Nat → Nat
  tau : Nat × Nat × Nat → ℚ
  ssa : Nat × Nat × Nat → ℚ
  g : Nat × Nat × Nat → ℚ
  mu0 : Nat → ℚ
  inc_flux : Nat × Nat → ℚ
  sfc_alb_dir : Nat → Nat → ℚ
  sfc_alb_dif : Nat → Nat → ℚ

/-- Rte_sw::rte_sw (src/Rte_sw.cpp lines 57-98): expand the per-band direct
and diffuse surface albedos to per-spectral-point form, apply the top
boundary condition to the freshly allocated direct and downward flux arrays,
run the two-stream solver kernel, and reduce the per-spectral-point fluxes to
broadband fluxes.  The solver kernels are opaque parameters; the noscat
kernel parameter is present in the kernel library but the code never invokes
it.  Besides the reduced fluxes, the trace of executed steps is returned. -/
def rte_sw (solver_2stream solver_noscat : SwSolver) (a : Rte_sw_args) :
    List RteStep × Fluxes_broadband :=
  let sfc_alb_dir_gpt := expand_and_transpose a.nband a.ncol a.band_lims a.sfc_alb_dir (fun _ => 0)
  let sfc_alb_dif_gpt := expand_and_transpose a.nband a.ncol a.band_lims a.sfc_alb_dif (fun _ => 0)
  let gpt_flux_dir := apply_BC_factor a.nlay a.top_at_1 a.inc_flux a.mu0 (fun _ => 0)
  let gpt_flux_dn := apply_BC_zero a.nlay a.top_at_1 (fun _ => 0)
  let out := solver_2stream a.tau a.ssa a.g a.mu0 sfc_alb_dir_gpt sfc_alb_dif_gpt
    gpt_flux_dn gpt_flux_dir
  ([RteStep.expand_albedo, RteStep.expand_albedo, RteStep.bc_factor, RteStep.bc_zero,
    RteStep.solver_2stream, RteStep.reduce_fluxes],
   Fluxes_broadband.reduce a.ngpt out.1 out.2.1 out.2.2)

/-- One variable of the input NetCDF file: its dimension map (name, size) and
its flattened data. -/
structure Nc_variable where
  dims : List (String × Nat)
  data : List ℚ
deriving DecidableEq

/-- The input NetCDF file as seen through the Netcdf_handle interface used by
read_and_set_vmr: a name-keyed collection of variables. -/
structure Netcdf_handle where
  vars : List (String × Nc_variable)
deriving DecidableEq

/-- Netcdf_handle::variable_exists. -/
def Netcdf_handle.variable_exists (nc : Netcdf_handle) (name : String) : Bool :=
  (nc.vars.lookup name).isSome

/-- read_and_set_vmr of the test driver (src_test/test_rte_rrtmgp.cpp lines
40-78).  When the variable vmr_<gas> is absent a warning is recorded and the
store is untouched; a rank-0 variable sets a scalar vmr; a rank-1 variable
sets a per-layer vmr when its lay dimension equals n_lay and otherwise throws
a runtime error; a rank-2 variable sets a per-layer-per-column vmr when its
lay and col dimensions match and otherwise throws; a lookup of a missing
dimension name mirrors the out-of-range throw of map::at; a variable of rank
3 or more falls through all branches, neither setting nor throwing.  Thrown
errors are the error case of the result; the ok case carries the store and
the recorded warnings. -/
def read_and_set_vmr (gas_name : String) (n_col n_lay : Nat)
    (input_nc : Netcdf_handle) (gas_concs : Gas_concs) :
    Except String (Gas_concs × List String) :=
  let vmr_gas_name := "vmr_" ++ gas_name
  match input_nc.vars.lookup vmr_gas_name with
  | some v =>
    let n_dims := v.dims.length
    if n_dims = 0 then
      Except.ok (gas_concs.set_vmr gas_name (GasField.scalar (v.data.headD 0)), [])
    else if n_dims = 1 then
      match v.dims.lookup "lay" with
      | some d =>
        if d = n_lay then
          Except.ok (gas_concs.set_vmr gas_name (GasField.per_lay v.data), [])
        else
          Except.error ("Illegal dimensions of gas \"" ++ gas_name ++ "\" in input")
      | none => Except.error "map::at key lay not found"
    else if n_dims = 2 then
      match v.dims.lookup "lay" with
      | some dlay =>
        if dlay = n_lay then
          match v.dims.lookup "col" with
          | some dcol =>
            if dcol = n_col then
              Except.ok (gas_concs.set_vmr gas_name (GasField.per_lay_col v.data), [])
            else
              Except.error ("Illegal dimensions of gas \"" ++ gas_name ++ "\" in input")
          | none => Except.error "map::at key col not found"
        else
          Except.error ("Illegal dimensions of gas \"" ++ gas_name ++ "\" in input")
      | none => Except.error "map::at key lay not found"
    else
      Except.ok (gas_concs, [])
  | none =>
    Except.ok (gas_concs, ["Gas \"" ++ gas_name ++ "\" not available in input file."])

/-- The all-zero rank-2 array. -/
def zero2 : Nat × Nat → ℚ := fun _ => 0

/-- The all-zero rank-3 array. -/
def zero3 : Nat × Nat × Nat → ℚ := fun _ => 0

/-- A concrete store holding a single scalar water vapour field. -/
def fixture_gas_concs : Gas_concs := ⟨[("h2o", GasField.scalar 1)]⟩

/-- A concrete engine whose trained feature set references only h2o. -/
def fixture_engine : Gas_optics_nn := construct_lw ["h2o"]

/-- A concrete longwave call world in which every required gas is present. -/
def fixture_lw_world : LwWorld :=
  { engine := fixture_engine
    play := zero2
    plev := zero2
    tlay := zero2
    tlev := zero2
    tsfc := fun _ => 0
    col_dry := zero2
    gas_concs := fixture_gas_concs
    optical_props := { ngpt := 4, tau := zero3 }
    sources := { ngpt := 4, lay_source := zero3, lev_source_inc := zero3,
                 lev_source_dec := zero3, sfc_source := zero2 } }

/-- A concrete shortwave call world in which every required gas is present. -/
def fixture_sw_world : SwWorld :=
  { engine := fixture_engine
    play := zero2
    plev := zero2
    tlay := zero2
    col_dry := zero2
    gas_concs := fixture_gas_concs
    optical_props := { ngpt := 4, tau := zero3, ssa := zero3, g := zero3 }
    toa_src := { ngpt := 4, values := zero2 } }

/-- The same longwave call world with an empty gas store, so that the
required gas h2o is absent. -/
def fixture_empty_gc_world : LwWorld := { fixture_lw_world with gas_concs := ⟨[]⟩ }

theorem range_fold_eval (icol lo n : Nat) (v : ℚ) (f : Nat × Nat → ℚ) (c g : Nat) :
    ((List.range n).foldl (fun a k => upd2 a icol (lo + k) v) f) (c, g)
      = if c = icol ∧ lo ≤ g ∧ g < lo + n then v else f (c, g) := by
  induction n generalizing f with
  | zero =>
    simp only [List.range_zero, List.foldl_nil]
    rw [if_neg (by omega)]
  | succ n ih =>
    rw [List.range_succ, List.foldl_append, List.foldl_cons, List.foldl_nil]
    simp only [upd2, Prod.mk.injEq]
    rw [ih]
    split_ifs <;> first | rfl | omega

theorem gpt_loop_eval (arr_in : Nat → Nat → ℚ) (iband icol lo hi : Nat)
    (acc : Nat × Nat → ℚ) (c g : Nat) :
    gpt_loop arr_in iband icol lo hi acc (c, g)
      = if c = icol ∧ lo ≤ g ∧ g ≤ hi then arr_in iband icol else acc (c, g) := by
  rw [gpt_loop, range_fold_eval]
  split_ifs <;> first | rfl | omega

theorem col_loop_succ (arr_in : Nat → Nat → ℚ) (iband n lo hi : Nat)
    (acc : Nat × Nat → ℚ) :
    col_loop arr_in iband (n + 1) lo hi acc
      = gpt_loop arr_in iband (n + 1) lo hi (col_loop arr_in iband n lo hi acc) := by
  rw [col_loop, col_loop, List.range_succ, List.foldl_append, List.foldl_cons, List.foldl_nil]

theorem col_loop_eval (arr_in : Nat → Nat → ℚ) (iband lo hi : Nat)
    (c g : Nat) : ∀ (ncol : Nat) (acc : Nat × Nat → ℚ),
    col_loop arr_in iband ncol lo hi acc (c, g)
      = if 1 ≤ c ∧ c ≤ ncol ∧ lo ≤ g ∧ g ≤ hi then arr_in iband c else acc (c, g) := by
  intro ncol
  induction ncol with
  | zero =>
    intro acc
    rw [col_loop]
    simp only [List.range_zero, List.foldl_nil]
    rw [if_neg (by omega)]
  | succ n ih =>
    intro acc
    rw [col_loop_succ, gpt_loop_eval, ih]
    split_ifs with h1 h2 h3 <;> first | rfl | omega | (obtain ⟨rfl, _⟩ := h1; rfl)

theorem expand_succ (n ncol : Nat) (limits : Nat → Nat → Nat)
    (arr_in : Nat → Nat → ℚ) (arr_out : Nat × Nat → ℚ) :
    expand_and_transpose (n + 1) ncol limits arr_in arr_out
      = col_loop arr_in (n + 1) ncol (limits 1 (n + 1)) (limits 2 (n + 1))
          (expand_and_transpose n ncol limits arr_in arr_out) := by
  rw [expand_and_transpose, expand_and_transpose, List.range_succ, List.foldl_append,
    List.foldl_cons, List.foldl_nil]

theorem expand_eval_aux (ncol : Nat) (limits : Nat → Nat → Nat)
    (arr_in : Nat → Nat → ℚ) (arr_out : Nat × Nat → ℚ) (b c g : Nat)
    (hc1 : 1 ≤ c) (hc2 : c ≤ ncol) (hg1 : limits 1 b ≤ g) (hg2 : g ≤ limits 2 b) :
    ∀ nband, bands_disjoint nband limits → 1 ≤ b → b ≤ nband →
      expand_and_transpose nband ncol limits arr_in arr_out (c, g) = arr_in b c := by
  intro nband
  induction nband with
  | zero => intro _ _ h; omega
  | succ n ih =>
    intro hdisj hb1 hb2
    rw [expand_succ, col_loop_eval]
    by_cases hb : b = n + 1
    · subst hb
      rw [if_pos ⟨hc1, hc2, hg1, hg2⟩]
    · have hd := hdisj b (n + 1) hb1 (by omega) (by omega) (le_refl (n + 1)) hb
      rw [if_neg (by omega)]
      exact ih (fun x y hx1 hx2 hy1 hy2 hne => hdisj x y hx1 (by omega) hy1 (by omega) hne)
        hb1 (by omega)

/-- Claim C2: for every band b with spectral-point range [lo_b, hi_b] given by
the band-to-gpoint limits (pairwise disjoint band intervals), and for every
column, expand_and_transpose writes the band value arr_in(b, col) into
arr_out(col, igpt) for every igpt in [lo_b, hi_b]: a pure broadcast of each
band value across its points, not an interpolation. -/
theorem expand_and_transpose_broadcast
    (nband ncol : Nat) (limits : Nat → Nat → Nat)
    (arr_in : Nat → Nat → ℚ) (arr_out : Nat × Nat → ℚ)
    (hdisj : bands_disjoint nband limits) (b col igpt : Nat)
    (hb1 : 1 ≤ b) (hb2 : b ≤ nband) (hc1 : 1 ≤ col) (hc2 : col ≤ ncol)
    (hg1 : limits 1 b ≤ igpt) (hg2 : igpt ≤ limits 2 b) :
    expand_and_transpose nband ncol limits arr_in arr_out (col, igpt) = arr_in b col :=
  expand_eval_aux ncol limits arr_in arr_out b col igpt hc1 hc2 hg1 hg2 nband hdisj hb1 hb2

theorem expand_and_transpose_broadcast_witness :
    expand_and_transpose 2 2 (fun i b => if i = 1 then 2 * b - 1 else 2 * b)
      (fun b c => (10 * b + c : ℚ)) (fun _ => 0) (1, 3) = 21 := by
  have h := expand_and_transpose_broadcast 2 2
    (fun i b => if i = 1 then 2 * b - 1 else 2 * b)
    (fun b c => (10 * b + c : ℚ)) (fun _ => 0)
    (by
      intro x y hx1 hx2 hy1 hy2 hne
      interval_cases x <;> interval_cases y <;> simp_all)
    2 1 3 (by omega) (by omega) (by omega) (by omega) (by decide) (by decide)
  rw [h]
  norm_num

/-- Claim C1: for every shortwave gas_optics call, at every in-domain
(column, layer, spectral point), the single-scatter albedo written by
compute_tau_ssa_nn lies in [0, 1] and the written optical depth is
non-negative, for arbitrary network outputs: out-of-range raw outputs are
saturated to the nearest bound and in-range raw outputs pass through
unchanged, never rejected. -/
theorem compute_tau_ssa_nn_clamped (ncol nlay ngpt : Nat)
    (raw_tau raw_ssa : Nat × Nat × Nat → ℚ) (op : Optical_props_sw)
    (p : Nat × Nat × Nat) (hp : in_dom ncol nlay ngpt p = true) :
    (0 ≤ (compute_tau_ssa_nn ncol nlay ngpt raw_tau raw_ssa op).ssa p
      ∧ (compute_tau_ssa_nn ncol nlay ngpt raw_tau raw_ssa op).ssa p ≤ 1)
    ∧ 0 ≤ (compute_tau_ssa_nn ncol nlay ngpt raw_tau raw_ssa op).tau p
    ∧ (1 ≤ raw_ssa p → (compute_tau_ssa_nn ncol nlay ngpt raw_tau raw_ssa op).ssa p = 1)
    ∧ (raw_ssa p ≤ 0 → (compute_tau_ssa_nn ncol nlay ngpt raw_tau raw_ssa op).ssa p = 0)
    ∧ (raw_tau p ≤ 0 → (compute_tau_ssa_nn ncol nlay ngpt raw_tau raw_ssa op).tau p = 0)
    ∧ (0 ≤ raw_ssa p → raw_ssa p ≤ 1 →
        (compute_tau_ssa_nn ncol nlay ngpt raw_tau raw_ssa op).ssa p = raw_ssa p)
    ∧ (0 ≤ raw_tau p →
        (compute_tau_ssa_nn ncol nlay ngpt raw_tau raw_ssa op).tau p = raw_tau p) := by
  have essa : (compute_tau_ssa_nn ncol nlay ngpt raw_tau raw_ssa op).ssa p
      = min 1 (max 0 (raw_ssa p)) := by
    simp [compute_tau_ssa_nn, hp]
  have etau : (compute_tau_ssa_nn ncol nlay ngpt raw_tau raw_ssa op).tau p
      = max 0 (raw_tau p) := by
    simp [compute_tau_ssa_nn, hp]
  rw [essa, etau]
  refine ⟨⟨le_min (by norm_num) (le_max_left 0 _), min_le_left 1 _⟩, le_max_left 0 _,
    ?_, ?_, ?_, ?_, ?_⟩
  · intro h
    exact min_eq_left (h.trans (le_max_right 0 _))
  · intro h
    rw [max_eq_left h]
    norm_num
  · intro h
    exact max_eq_left h
  · intro h0 h1
    rw [max_eq_right h0, min_eq_right h1]
  · intro h0
    exact max_eq_right h0

theorem compute_tau_ssa_nn_clamped_witness :
    (compute_tau_ssa_nn 1 1 1 (fun _ => -5) (fun _ => 7)
        ⟨1, zero3, zero3, zero3⟩).ssa (1, 1, 1) = 1
    ∧ (compute_tau_ssa_nn 1 1 1 (fun _ => -5) (fun _ => 7)
        ⟨1, zero3, zero3, zero3⟩).tau (1, 1, 1) = 0 := by
  have h := compute_tau_ssa_nn_clamped 1 1 1 (fun _ => -5) (fun _ => 7)
    ⟨1, zero3, zero3, zero3⟩ (1, 1, 1) (by decide)
  exact ⟨h.2.2.1 (by norm_num), h.2.2.2.2.1 (by norm_num)⟩

/-- Claim C3: in every rte_sw execution the per-band direct and diffuse
surface albedos are expanded first, then the top boundary condition is
applied (the direct-beam flux at the top level becomes the supplied
per-column incident flux scaled by that column's mu0 factor, and the
downward diffuse flux at the top level becomes zero), then the two-stream
kernel runs on the expanded albedos and boundary-conditioned fluxes, and only
afterwards are the per-spectral-point fluxes reduced to broadband fluxes. -/
theorem rte_sw_step_order (s2 ns : SwSolver) (a : Rte_sw_args) :
    (rte_sw s2 ns a).1
      = [RteStep.expand_albedo, RteStep.expand_albedo, RteStep.bc_factor, RteStep.bc_zero,
         RteStep.solver_2stream, RteStep.reduce_fluxes]
    ∧ (∀ c g, apply_BC_factor a.nlay a.top_at_1 a.inc_flux a.mu0 (fun _ => 0)
        (c, top_level a.nlay a.top_at_1, g) = a.inc_flux (c, g) * a.mu0 c)
    ∧ (∀ c g, apply_BC_zero a.nlay a.top_at_1 (fun _ => 0)
        (c, top_level a.nlay a.top_at_1, g) = 0)
    ∧ (rte_sw s2 ns a).2
      = Fluxes_broadband.reduce a.ngpt
          (s2 a.tau a.ssa a.g a.mu0
            (expand_and_transpose a.nband a.ncol a.band_lims a.sfc_alb_dir (fun _ => 0))
            (expand_and_transpose a.nband a.ncol a.band_lims a.sfc_alb_dif (fun _ => 0))
            (apply_BC_zero a.nlay a.top_at_1 (fun _ => 0))
            (apply_BC_factor a.nlay a.top_at_1 a.inc_flux a.mu0 (fun _ => 0))).1
          (s2 a.tau a.ssa a.g a.mu0
            (expand_and_transpose a.nband a.ncol a.band_lims a.sfc_alb_dir (fun _ => 0))
            (expand_and_transpose a.nband a.ncol a.band_lims a.sfc_alb_dif (fun _ => 0))
            (apply_BC_zero a.nlay a.top_at_1 (fun _ => 0))
            (apply_BC_factor a.nlay a.top_at_1 a.inc_flux a.mu0 (fun _ => 0))).2.1
          (s2 a.tau a.ssa a.g a.mu0
            (expand_and_transpose a.nband a.ncol a.band_lims a.sfc_alb_dir (fun _ => 0))
            (expand_and_transpose a.nband a.ncol a.band_lims a.sfc_alb_dif (fun _ => 0))
            (apply_BC_zero a.nlay a.top_at_1 (fun _ => 0))
            (apply_BC_factor a.nlay a.top_at_1 a.inc_flux a.mu0 (fun _ => 0))).2.2 := by
  refine ⟨rfl, ?_, ?_, rfl⟩
  · intro c g
    simp [apply_BC_factor]
  · intro c g
    simp [apply_BC_zero]

/-- Claim C5: for every call of rte_sw and regardless of the optical inputs,
only the two-stream scattering kernel is invoked: the result is independent
of the noscat kernel parameter, the executed trace contains the two-stream
solver step and never a no-scattering step. -/
theorem rte_sw_only_2stream (s2 ns nsb : SwSolver) (a : Rte_sw_args) :
    rte_sw s2 ns a = rte_sw s2 nsb a
    ∧ RteStep.solver_2stream ∈ (rte_sw s2 ns a).1
    ∧ RteStep.solver_noscat ∉ (rte_sw s2 ns a).1 := by
  refine ⟨rfl, ?_, ?_⟩
  · show RteStep.solver_2stream ∈
      [RteStep.expand_albedo, RteStep.expand_albedo, RteStep.bc_factor, RteStep.bc_zero,
       RteStep.solver_2stream, RteStep.reduce_fluxes]
    decide
  · show RteStep.solver_noscat ∉
      [RteStep.expand_albedo, RteStep.expand_albedo, RteStep.bc_factor, RteStep.bc_zero,
       RteStep.solver_2stream, RteStep.reduce_fluxes]
    decide

/-- Claim C4: for every output of the flux reduction, at every column and
level, the net flux equals the upward flux minus the downward flux, where the
downward per-point stream handed to the reduction decomposes into diffuse
plus direct, so the direct beam is included in the downward flux. -/
theorem reduce_net_up_minus_dn (ngpt : Nat)
    (gpt_up gpt_dn gpt_dif gpt_dir : Nat × Nat × Nat → ℚ) (icol ilev : Nat)
    (hdn : ∀ p, gpt_dn p = gpt_dif p + gpt_dir p) :
    (Fluxes_broadband.reduce ngpt gpt_up gpt_dn gpt_dir).flux_net (icol, ilev)
      = (Fluxes_broadband.reduce ngpt gpt_up gpt_dn gpt_dir).flux_up (icol, ilev)
        - (Fluxes_broadband.reduce ngpt gpt_up gpt_dn gpt_dir).flux_dn (icol, ilev)
    ∧ (Fluxes_broadband.reduce ngpt gpt_up gpt_dn gpt_dir).flux_dn (icol, ilev)
      = (∑ k ∈ Finset.range ngpt, gpt_dif (icol, ilev, k + 1))
        + (Fluxes_broadband.reduce ngpt gpt_up gpt_dn gpt_dir).flux_dn_dir (icol, ilev) := by
  constructor
  · simp only [Fluxes_broadband.reduce]
    rw [Finset.sum_sub_distrib]
  · simp only [Fluxes_broadband.reduce]
    simp only [hdn]
    rw [Finset.sum_add_distrib]

theorem reduce_net_up_minus_dn_witness :
    (Fluxes_broadband.reduce 2 (fun _ => 5) (fun _ => 3) (fun _ => 2)).flux_net (1, 1)
      = (Fluxes_broadband.reduce 2 (fun _ => 5) (fun _ => 3) (fun _ => 2)).flux_up (1, 1)
        - (Fluxes_broadband.reduce 2 (fun _ => 5) (fun _ => 3) (fun _ => 2)).flux_dn (1, 1) :=
  (reduce_net_up_minus_dn 2 (fun _ => 5) (fun _ => 3) (fun _ => 1) (fun _ => 2) 1 1
    (fun _ => by norm_num)).1

/-- Claim C6: the tropopause reference pressure routing layers between the
lower- and upper-atmosphere network regimes is the fixed constant
9948.431564193395 Pa (= 9948431564193395 / 10^12) in every state reachable
through the operations of the engine: it is set at class definition and no
operation reconfigures it. -/
theorem press_ref_trop_fixed (s : Gas_optics_nn) (hs : Reachable s) :
    s.press_ref_trop = 9948431564193395 / 1000000000000 := by
  induction hs with
  | lw names => rfl
  | sw names quiet facular sunspot tsi mg sb => rfl
  | solar_update s md sb hr ih => exact ih

theorem press_ref_trop_fixed_witness :
    (construct_lw ["h2o"]).press_ref_trop = 9948431564193395 / 1000000000000 :=
  press_ref_trop_fixed (construct_lw ["h2o"]) (Reachable.lw ["h2o"])

/-- Claim C7: set_solar_variability recomputes the effective solar source as
the linear combination of the quiet, facular and sunspot component vectors
weighted by the two indices, changes no other state, and is idempotent:
calling it again with the stored default indices reproduces the
construction-time state of the shortwave constructor exactly. -/
theorem set_solar_variability_spec :
    (∀ (s : Gas_optics_nn) (md sb : ℚ) (igpt : Nat),
      (set_solar_variability s md sb).solar_source igpt
        = s.solar_source_quiet igpt + md * s.solar_source_facular igpt
          + sb * s.solar_source_sunspot igpt)
    ∧ (∀ (s : Gas_optics_nn) (md sb : ℚ),
        (set_solar_variability s md sb).gas_names = s.gas_names
        ∧ (set_solar_variability s md sb).solar_source_quiet = s.solar_source_quiet
        ∧ (set_solar_variability s md sb).solar_source_facular = s.solar_source_facular
        ∧ (set_solar_variability s md sb).solar_source_sunspot = s.solar_source_sunspot
        ∧ (set_solar_variability s md sb).tsi_default = s.tsi_default
        ∧ (set_solar_variability s md sb).mg_default = s.mg_default
        ∧ (set_solar_variability s md sb).sb_default = s.sb_default
        ∧ (set_solar_variability s md sb).press_ref_trop = s.press_ref_trop)
    ∧ (∀ (names : List String) (quiet facular sunspot : Nat → ℚ) (tsi mg sb : ℚ),
        set_solar_variability (construct_sw names quiet facular sunspot tsi mg sb) mg sb
          = construct_sw names quiet facular sunspot tsi mg sb) :=
  ⟨fun _ _ _ _ => rfl,
   fun _ _ _ => ⟨rfl, rfl, rfl, rfl, rfl, rfl, rfl, rfl⟩,
   fun _ _ _ _ _ _ _ => rfl⟩

/-- Claim C8: for every successful call of either gas_optics overload the
engine state, the gas concentration store and the profile inputs (play, plev,
tlay, tlev, tsfc, col_dry) are unchanged; only the caller-supplied output
containers are mutated, in place, and their spectral extents are never
reallocated. -/
theorem gas_optics_frame (ncol nlay ngpt : Nat)
    (rt rl ri rd : Nat × Nat × Nat → ℚ) (rs : Nat × Nat → ℚ)
    (rt2 rssa : Nat × Nat × Nat → ℚ) (w : LwWorld) (v : SwWorld)
    (w2 : LwWorld) (v2 : SwWorld)
    (hlw : gas_optics_lw ncol nlay ngpt rt rl ri rd rs w = (w2, none))
    (hsw : gas_optics_sw ncol nlay ngpt rt2 rssa v = (v2, none)) :
    (w2.engine = w.engine ∧ w2.play = w.play ∧ w2.plev = w.plev ∧ w2.tlay = w.tlay
      ∧ w2.tlev = w.tlev ∧ w2.tsfc = w.tsfc ∧ w2.col_dry = w.col_dry
      ∧ w2.gas_concs = w.gas_concs
      ∧ w2.optical_props.ngpt = w.optical_props.ngpt ∧ w2.sources.ngpt = w.sources.ngpt)
    ∧ (v2.engine = v.engine ∧ v2.play = v.play ∧ v2.plev = v.plev ∧ v2.tlay = v.tlay
      ∧ v2.col_dry = v.col_dry ∧ v2.gas_concs = v.gas_concs
      ∧ v2.optical_props.ngpt = v.optical_props.ngpt
      ∧ v2.toa_src.ngpt = v.toa_src.ngpt) := by
  constructor
  · by_cases h : gases_present w.engine w.gas_concs = true
    · rw [gas_optics_lw, if_pos h, Prod.mk.injEq] at hlw
      obtain ⟨hw, -⟩ := hlw
      subst hw
      exact ⟨rfl, rfl, rfl, rfl, rfl, rfl, rfl, rfl, rfl, rfl⟩
    · rw [gas_optics_lw, if_neg h, Prod.mk.injEq] at hlw
      exact Option.noConfusion hlw.2
  · by_cases h : gases_present v.engine v.gas_concs = true
    · rw [gas_optics_sw, if_pos h, Prod.mk.injEq] at hsw
      obtain ⟨hv, -⟩ := hsw
      subst hv
      exact ⟨rfl, rfl, rfl, rfl, rfl, rfl, rfl, rfl⟩
    · rw [gas_optics_sw, if_neg h, Prod.mk.injEq] at hsw
      exact Option.noConfusion hsw.2

theorem gas_optics_frame_witness :
    (gas_optics_lw 1 1 1 zero3 zero3 zero3 zero3 zero2 fixture_lw_world).1.gas_concs
        = fixture_lw_world.gas_concs
    ∧ (gas_optics_sw 1 1 1 zero3 zero3 fixture_sw_world).1.toa_src.ngpt
        = fixture_sw_world.toa_src.ngpt :=
  ⟨(gas_optics_frame 1 1 1 zero3 zero3 zero3 zero3 zero2 zero3 zero3
      fixture_lw_world fixture_sw_world
      (gas_optics_lw 1 1 1 zero3 zero3 zero3 zero3 zero2 fixture_lw_world).1
      (gas_optics_sw 1 1 1 zero3 zero3 fixture_sw_world).1
      rfl rfl).1.2.2.2.2.2.2.2.1,
   (gas_optics_frame 1 1 1 zero3 zero3 zero3 zero3 zero2 zero3 zero3
      fixture_lw_world fixture_sw_world
      (gas_optics_lw 1 1 1 zero3 zero3 zero3 zero3 zero2 fixture_lw_world).1
      (gas_optics_sw 1 1 1 zero3 zero3 fixture_sw_world).1
      rfl rfl).2.2.2.2.2.2.2.2⟩

/-- Claim C9: a longwave gas_optics call in which some gas referenced by the
trained feature set is absent from the gas concentration store fails with a
fatal configuration error; the whole call is aborted and no partial output is
written: the world comes back unchanged together with the error. -/
theorem gas_optics_lw_missing_gas (ncol nlay ngpt : Nat)
    (rt rl ri rd : Nat × Nat × Nat → ℚ) (rs : Nat × Nat → ℚ) (w : LwWorld)
    (hmiss : ∃ name, name ∈ w.engine.gas_names ∧ w.gas_concs.exists_gas name = false) :
    gas_optics_lw ncol nlay ngpt rt rl ri rd rs w
      = (w, some "Not all gases of the trained feature set are present in gas_concs") := by
  have hfalse : gases_present w.engine w.gas_concs = false := by
    rw [gases_present, List.all_eq_false]
    obtain ⟨name, hmem, habs⟩ := hmiss
    exact ⟨name, hmem, by simp [habs]⟩
  rw [gas_optics_lw, if_neg (by simp [hfalse])]

theorem gas_optics_lw_missing_gas_witness :
    gas_optics_lw 1 1 1 zero3 zero3 zero3 zero3 zero2 fixture_empty_gc_world
      = (fixture_empty_gc_world,
         some "Not all gases of the trained feature set are present in gas_concs") :=
  gas_optics_lw_missing_gas 1 1 1 zero3 zero3 zero3 zero3 zero2 fixture_empty_gc_world
    ⟨"h2o", by decide, rfl⟩

/-- Claim C10 counterexample: the input file holds vmr_ch4 with three
dimensions (lay = 3, col = 4, time = 2) while the expected sizes are
n_lay = 7 and n_col = 4, so its dimensions disagree with the expectation; yet
read_and_set_vmr neither throws a runtime error nor calls set_vmr: it
silently returns the unchanged store, refuting the claim as stated. -/
theorem read_and_set_vmr_counterexample :
    Netcdf_handle.variable_exists
        ⟨[("vmr_ch4", ⟨[("lay", 3), ("col", 4), ("time", 2)], []⟩)]⟩ "vmr_ch4" = true
    ∧ (Nc_variable.dims ⟨[("lay", 3), ("col", 4), ("time", 2)], []⟩).lookup "lay" = some 3
    ∧ (3 : Nat) ≠ 7
    ∧ read_and_set_vmr "ch4" 4 7
        ⟨[("vmr_ch4", ⟨[("lay", 3), ("col", 4), ("time", 2)], []⟩)]⟩ ⟨[]⟩
        = Except.ok (⟨[]⟩, []) :=
  ⟨rfl, rfl, by decide, rfl⟩

/-- Claim C10 as amended: when vmr_<gas> is absent, read_and_set_vmr leaves
the store unchanged and only records a warning; when it is present with one
dimension whose lay size disagrees with n_lay, or with two dimensions whose
lay or col sizes disagree with n_lay and n_col, a runtime error is thrown
before any set_vmr; a present variable with three or more dimensions is
silently ignored, neither set nor rejected. -/
theorem read_and_set_vmr_amended (g : String) (n_col n_lay : Nat)
    (nc : Netcdf_handle) (gc : Gas_concs) :
    (nc.vars.lookup ("vmr_" ++ g) = none →
      read_and_set_vmr g n_col n_lay nc gc
        = Except.ok (gc, ["Gas \"" ++ g ++ "\" not available in input file."]))
    ∧ (∀ v, nc.vars.lookup ("vmr_" ++ g) = some v →
        (v.dims.length = 1 → ∀ d, v.dims.lookup "lay" = some d → d ≠ n_lay →
          read_and_set_vmr g n_col n_lay nc gc
            = Except.error ("Illegal dimensions of gas \"" ++ g ++ "\" in input"))
        ∧ (v.dims.length = 2 → ∀ dl dc, v.dims.lookup "lay" = some dl →
            v.dims.lookup "col" = some dc → (dl ≠ n_lay ∨ dc ≠ n_col) →
          read_and_set_vmr g n_col n_lay nc gc
            = Except.error ("Illegal dimensions of gas \"" ++ g ++ "\" in input"))
        ∧ (3 ≤ v.dims.length →
          read_and_set_vmr g n_col n_lay nc gc = Except.ok (gc, []))) := by
  refine ⟨?_, ?_⟩
  · intro h
    simp [read_and_set_vmr, h]
  · intro v hv
    refine ⟨?_, ?_, ?_⟩
    · intro h1 d hd hne
      simp [read_and_set_vmr, hv, h1, hd, hne]
    · intro h2 dl dc hdl hdc hor
      rcases hor with hne | hne
      · simp [read_and_set_vmr, hv, h2, hdl, hne]
      · by_cases hdleq : dl = n_lay
        · subst hdleq
          simp [read_and_set_vmr, hv, h2, hdl, hdc, hne]
        · simp [read_and_set_vmr, hv, h2, hdl, hdleq]
    · intro h3
      have h0 : v.dims.length ≠ 0 := by omega
      have h1 : v.dims.length ≠ 1 := by omega
      have h2 : v.dims.length ≠ 2 := by omega
      simp [read_and_set_vmr, hv, h0, h1, h2]

theorem read_and_set_vmr_amended_witness :
    read_and_set_vmr "h2o" 4 7 ⟨[]⟩ ⟨[]⟩
        = Except.ok ((⟨[]⟩ : Gas_concs), ["Gas \"h2o\" not available in input file."])
    ∧ read_and_set_vmr "n2o" 4 7
        ⟨[("vmr_n2o", ⟨[("lay", 3), ("col", 4), ("time", 2)], []⟩)]⟩ ⟨[]⟩
        = Except.ok ((⟨[]⟩ : Gas_concs), []) :=
  ⟨(read_and_set_vmr_amended "h2o" 4 7 ⟨[]⟩ ⟨[]⟩).1 rfl,
   (((read_and_set_vmr_amended "n2o" 4 7
        ⟨[("vmr_n2o", ⟨[("lay", 3), ("col", 4), ("time", 2)], []⟩)]⟩ ⟨[]⟩).2
      ⟨[("lay", 3), ("col", 4), ("time", 2)], []⟩ rfl).2.2 (by decide))⟩
